import Mathlib

/-!
# Verification of the ooni-probe backend/resource layer

A shallow embedding of the relevant parts of `ooni/backend_client.py` and
`ooni/deck.py`, with theorems settling the frozen claims about the
natural-language specification of this repository.

Conventions of the embedding:
* Python byte strings are `List Nat` (each entry a byte value); text strings
  are Lean `String`s.
* Fallible Python code becomes `Except PyErr` / `Except BackendError`.
* The filesystem visible to the cache layer is an association list from
  path to file contents; a later entry for the same path is shadowed by an
  earlier one, and `fsSet` conses the new binding in front.
* Python standard-library collaborators that are not part of this
  repository (`json.loads`) are taken as parameters of the definitions that
  call them; repository modules missing from `src/` (`ooni.errors.get_error`,
  `ooni.utils.onion.is_onion_address`) are modelled from the spec and marked
  as such in their doc comments.
-/

namespace Ooni

/-- Python-level exception kinds that the embedded code can raise.
`unableToLoadDeckInput` stands for the repository's own
`ooni.errors.UnableToLoadDeckInput`; the others are Python builtins. -/
inductive PyErr where
  | typeError
  | keyError
  | valueError
  | attributeError
  | assertionError
  | ioError
  | unableToLoadDeckInput
  deriving DecidableEq, Repr

/-- A JSON value, as produced by `json.loads`.  Objects keep their key/value
pairs as an association list. -/
inductive Json where
  | obj : List (String × Json) → Json
  | arr : List Json → Json
  | str : String → Json
  | num : Int → Json
  | bool : Bool → Json
  | null : Json

/-- Errors surfaced by the backend connection layer.  `backendReportedError`
carries the JSON value found under the response's `error` key;
`pyError` records a plain Python exception escaping the response handler. -/
inductive BackendError where
  | invalidAddress
  | malformedResponse
  | backendReportedError : Json → BackendError
  | pyError : PyErr → BackendError

/-! ## String utilities (models of the Python `str` operations used) -/

/-- Python `s.startswith(pre)`. -/
def strStartsWith (s pre : String) : Bool :=
  pre.data.isPrefixOf s.data

/-- Python `s.endswith(suf)`. -/
def strEndsWith (s suf : String) : Bool :=
  suf.data.isSuffixOf s.data

/-- Python `s.lower()` (the addresses involved are ASCII). -/
def strToLower (s : String) : String :=
  String.mk (s.data.map Char.toLower)

/-- Split a character list at the first occurrence of `"://"`:
`splitSep cs = some (before, after)` when the separator occurs, `none`
otherwise.  This is the part of `urlparse` the embedded code relies on. -/
def splitSep : List Char → Option (List Char × List Char)
  | [] => none
  | c :: rest =>
    if c = ':' ∧ rest.take 2 = ['/', '/'] then
      some ([], rest.drop 2)
    else
      match splitSep rest with
      | none => none
      | some (a, b) => some (c :: a, b)

/-- `urlparse(s).scheme` for the `scheme://…` addresses this code handles
(lower-cased, as `urlparse` does); empty when there is no `"://"`. -/
def schemeOf (s : String) : String :=
  match splitSep s.data with
  | none => ""
  | some (a, _) => String.mk (a.map Char.toLower)

/-- A character that does not end the network-location part of a URL. -/
def notSepChar (c : Char) : Bool := !(c == '/' || c == '?' || c == '#')

/-- `urlparse(s).netloc` for the `scheme://…` addresses this code handles:
everything after `"://"` up to the first `/`, `?` or `#`. -/
def netlocOf (s : String) : String :=
  match splitSep s.data with
  | none => ""
  | some (_, b) => String.mk (b.takeWhile notSepChar)

/-- One step of `os.path.basename`: keep the characters accumulated since the
last `/`. -/
def basenameStep (acc : List Char) (c : Char) : List Char :=
  if c = '/' then [] else acc ++ [c]

/-- `os.path.basename`: the part of the path after its last `/`. -/
def basename (p : String) : String :=
  String.mk (p.data.foldl basenameStep [])

/-- `os.path.join(dir, name)` for the non-absolute `name`s this code joins
(content-hash file names). -/
def joinPath (dir name : String) : String :=
  dir ++ "/" ++ name

/-! ## SHA-256 (FIPS 180-4)

`InputFile.verify` in deck.py hashes the cached payload with
`hashlib.sha256` and compares the hex digest against the file name.  The
hash is implemented here in full so that cache predicates are executable. -/

/-- 2^32, the word modulus of SHA-256. -/
def w32 : Nat := 4294967296

/-- Addition modulo 2^32. -/
def add32 (a b : Nat) : Nat := (a + b) % w32

/-- Right rotation of a 32-bit word by `n` places. -/
def rotr (n x : Nat) : Nat := ((x >>> n) ||| (x <<< (32 - n))) % w32

/-- Bitwise complement of a 32-bit word. -/
def not32 (x : Nat) : Nat := x ^^^ (w32 - 1)

/-- The SHA-256 round constants (FIPS 180-4 section 4.2.2, in decimal). -/
def sha256K : List Nat :=
  [1116352408, 1899447441, 3049323471, 3921009573,
   961987163, 1508970993, 2453635748, 2870763221,
   3624381080, 310598401, 607225278, 1426881987,
   1925078388, 2162078206, 2614888103, 3248222580,
   3835390401, 4022224774, 264347078, 604807628,
   770255983, 1249150122, 1555081692, 1996064986,
   2554220882, 2821834349, 2952996808, 3210313671,
   3336571891, 3584528711, 113926993, 338241895,
   666307205, 773529912, 1294757372, 1396182291,
   1695183700, 1986661051, 2177026350, 2456956037,
   2730485921, 2820302411, 3259730800, 3345764771,
   3516065817, 3600352804, 4094571909, 275423344,
   430227734, 506948616, 659060556, 883997877,
   958139571, 1322822218, 1537002063, 1747873779,
   1955562222, 2024104815, 2227730452, 2361852424,
   2428436474, 2756734187, 3204031479, 3329325298]

/-- The SHA-256 initial hash state (FIPS 180-4 section 5.3.3, in decimal). -/
def sha256H0 : List Nat :=
  [1779033703, 3144134277, 1013904242, 2773480762,
   1359893119, 2600822924, 528734635, 1541459225]

/-- Pad a byte message per FIPS 180-4: a `0x80` byte, zeros up to 56 mod 64,
then the bit length as eight big-endian bytes. -/
def sha256Pad (msg : List Nat) : List Nat :=
  msg ++ [0x80] ++ List.replicate ((119 - msg.length % 64) % 64) 0 ++
    [56, 48, 40, 32, 24, 16, 8, 0].map (fun sh => ((8 * msg.length) >>> sh) % 256)

/-- Big-endian 32-bit words from a block of bytes. -/
def bytesToWords : List Nat → List Nat
  | b0 :: b1 :: b2 :: b3 :: rest =>
    (((b0 * 256 + b1) * 256 + b2) * 256 + b3) :: bytesToWords rest
  | _ => []

/-- Extend 16 message-schedule words to 64. -/
def sha256Extend (w : List Nat) : List Nat :=
  (List.range 48).foldl
    (fun w i =>
      let s0 := (rotr 7 (w.getD (i + 1) 0)) ^^^ (rotr 18 (w.getD (i + 1) 0)) ^^^
        ((w.getD (i + 1) 0) >>> 3)
      let s1 := (rotr 17 (w.getD (i + 14) 0)) ^^^ (rotr 19 (w.getD (i + 14) 0)) ^^^
        ((w.getD (i + 14) 0) >>> 10)
      w ++ [add32 (add32 (w.getD i 0) s0) (add32 (w.getD (i + 9) 0) s1)])
    w

/-- One SHA-256 compression round. -/
def sha256Round (st : Nat × Nat × Nat × Nat × Nat × Nat × Nat × Nat) (kw : Nat × Nat) :
    Nat × Nat × Nat × Nat × Nat × Nat × Nat × Nat :=
  match st, kw with
  | (a, b, c, d, e, f, g, h), (k, w) =>
    let S1 := (rotr 6 e) ^^^ (rotr 11 e) ^^^ (rotr 25 e)
    let ch := (e &&& f) ^^^ ((not32 e) &&& g)
    let t1 := add32 (add32 (add32 h S1) (add32 ch k)) w
    let S0 := (rotr 2 a) ^^^ (rotr 13 a) ^^^ (rotr 22 a)
    let mj := (a &&& b) ^^^ (a &&& c) ^^^ (b &&& c)
    let t2 := add32 S0 mj
    (add32 t1 t2, a, b, c, add32 d t1, e, f, g)

/-- Compress one 64-byte block into the running state. -/
def sha256Block (st : List Nat) (block : List Nat) : List Nat :=
  let w := sha256Extend (bytesToWords block)
  match (sha256K.zip w).foldl sha256Round
      (st.getD 0 0, st.getD 1 0, st.getD 2 0, st.getD 3 0,
       st.getD 4 0, st.getD 5 0, st.getD 6 0, st.getD 7 0) with
  | (a, b, c, d, e, f, g, h) =>
    [add32 (st.getD 0 0) a, add32 (st.getD 1 0) b, add32 (st.getD 2 0) c,
     add32 (st.getD 3 0) d, add32 (st.getD 4 0) e, add32 (st.getD 5 0) f,
     add32 (st.getD 6 0) g, add32 (st.getD 7 0) h]

/-- Split a padded message into 64-byte blocks, with a fuel argument (any
fuel at least the list length yields all blocks; each step consumes at
least one byte). -/
def blocks64Go : Nat → List Nat → List (List Nat)
  | _, [] => []
  | 0, _ => []
  | fuel + 1, l => l.take 64 :: blocks64Go fuel (l.drop 64)

/-- Split a padded message into 64-byte blocks. -/
def blocks64 (l : List Nat) : List (List Nat) :=
  blocks64Go l.length l

/-- The SHA-256 digest of a byte message, as eight 32-bit words. -/
def sha256 (msg : List Nat) : List Nat :=
  (blocks64 (sha256Pad msg)).foldl sha256Block sha256H0

/-- A lower-case hex digit. -/
def hexDigit (n : Nat) : Char :=
  "0123456789abcdef".data.getD n '0'

/-- A 32-bit word as eight lower-case hex characters. -/
def wordHex (w : Nat) : List Char :=
  [28, 24, 20, 16, 12, 8, 4, 0].map (fun sh => hexDigit ((w >>> sh) % 16))

/-- `hashlib.sha256(bytes).hexdigest()`. -/
def sha256hex (msg : List Nat) : String :=
  String.mk ((sha256 msg).foldr (fun w acc => wordHex w ++ acc) [])

/-! ## Address classification (`OONIBClient._guessBackendType`,
`OONIBClient._setupBaseAddress`) -/

/-- The backend transport types distinguished by `OONIBClient`. -/
inductive BackendType where
  | onion
  | http
  | https
  | cloudfront
  deriving DecidableEq, Repr

/-- Modelled from the spec: `ooni.utils.onion.is_onion_address` is not under
`src/`; per the spec, an onion-pattern address is one whose scheme is `http`
or `httpo` and whose host is a `.onion` host. -/
def is_onion_address (s : String) : Bool :=
  (strStartsWith s "http://" || strStartsWith s "httpo://") &&
    strEndsWith (netlocOf s) ".onion"

/-- `OONIBClient._guessBackendType` (backend_client.py lines 42-52): with no
explicit type override, classify the address; a missing address and an
address with no recognized shape both raise `InvalidAddress`. -/
def guessBackendType : Option String → Except BackendError BackendType
  | none => .error .invalidAddress
  | some a =>
    if is_onion_address a then .ok .onion
    else if strStartsWith a "https://" then .ok .https
    else if strStartsWith a "http://" then .ok .http
    else .error .invalidAddress

/-- `OONIBClient._setupBaseAddress` (backend_client.py lines 54-69):
normalize the stored base address to scheme plus host.  For the onion type
the address must match the onion pattern, and a scheme of `http` or `httpo`
is stored as `http`; `http` stores `http://netloc`; `https` and `cloudfront`
store `https://netloc`. -/
def setupBaseAddress (t : BackendType) (base : String) : Except BackendError String :=
  match t with
  | .onion =>
    if !is_onion_address base then .error .invalidAddress
    else if schemeOf base = "http" ∨ schemeOf base = "httpo" then
      .ok ("http://" ++ netlocOf base)
    else
      .ok (schemeOf base ++ "://" ++ netlocOf base)
  | .http => .ok ("http://" ++ netlocOf base)
  | .https => .ok ("https://" ++ netlocOf base)
  | .cloudfront => .ok ("https://" ++ netlocOf base)

/-! ## The retrying request executor (`OONIBClient._request`,
backend_client.py lines 92-133)

`perform_request(attempts)` performs one request; its errback receives the
current `attempts` value, and while `attempts < retries` it increments the
counter and immediately recurses, otherwise it propagates the error that the
failed attempt produced.  With a transport that fails attempt `i` with
`fail i`, the loop is embedded below with an explicit recursion counter
`k = retries - attempts` (so `k = 0` exactly when `attempts < retries`
fails); the result is the pair (number of requests performed, final error
delivered to `finished.errback`). -/

/-- The retry loop from `attempts`, run for `k = retries - attempts` more
retries: each invocation performs one request; if retries remain it recurses
with the incremented counter, else it fails with this attempt's own
transport error. -/
def performRequestGo (fail : Nat → PyErr) : Nat → Nat → Nat × PyErr
  | 0, attempts => (1, fail attempts)
  | k + 1, attempts =>
    let r := performRequestGo fail k (attempts + 1)
    (r.1 + 1, r.2)

/-- `OONIBClient._request` against an always-failing transport: the number
of attempts performed and the error the returned deferred fails with,
starting from attempt counter `attempts` (the code starts at 0). -/
def performRequest (retries : Nat) (fail : Nat → PyErr) (attempts : Nat) : Nat × PyErr :=
  performRequestGo fail (retries - attempts) attempts

/-! ## Response processing (`OONIBClient.queryBackend`,
backend_client.py lines 135-156)

`process_response` receives the accumulated response body (the HTTP status
is never consulted): an empty body yields no value; a body that fails to
JSON-decode raises `e.get_error(None)`; a decoded value containing an
`error` entry raises `e.get_error(response['error'])`.  `json.loads` is the
Python standard library and is taken as the parameter `parse`. -/

/-- Modelled from the spec: `ooni.errors.get_error` is not under `src/`;
per the spec it maps the absence of a decodable body (`None`) to
`MalformedResponse` and a backend-supplied error code to the matching
`BackendReportedError`. -/
def get_error : Option Json → BackendError
  | none => .malformedResponse
  | some code => .backendReportedError code

/-- Python `sub in s` for strings: substring containment. -/
def strContainsSub (s sub : String) : Bool :=
  (List.range (s.data.length + 1)).any fun i => sub.data.isPrefixOf (s.data.drop i)

/-- Is this JSON value the given string?  (Python `==` between a string and
a decoded JSON element is true only for an equal string.) -/
def jsonIsStr (j : Json) (s : String) : Bool :=
  match j with
  | .str t => t == s
  | _ => false

/-- Python `'error' in response` on a decoded JSON value: key membership for
an object, element membership for an array, substring for a string, and a
`TypeError` for numbers, booleans and `None`. -/
def pyContainsKey (k : String) : Json → Except PyErr Bool
  | .obj kvs => .ok (kvs.any fun kv => kv.1 == k)
  | .arr xs => .ok (xs.any fun x => jsonIsStr x k)
  | .str t => .ok (strContainsSub t k)
  | _ => .error .typeError

/-- Lookup in a decoded JSON object (`response['error']` on a dict). -/
def jsonLookup (kvs : List (String × Json)) (k : String) : Option Json :=
  (kvs.find? fun kv => kv.1 == k).map fun kv => kv.2

/-- `process_response` from `OONIBClient.queryBackend`: the body handed to
the receiver, dispatched as the code does.  `response['error']` on a decoded
non-object raises a `TypeError`, which is modelled as the corresponding
`pyError`. -/
def processResponse (parse : String → Option Json) (s : String) :
    Except BackendError (Option Json) :=
  if s = "" then .ok none
  else
    match parse s with
    | none => .error (get_error none)
    | some j =>
      match pyContainsKey "error" j with
      | .error e => .error (.pyError e)
      | .ok true =>
        match j with
        | .obj kvs => .error (get_error (jsonLookup kvs "error"))
        | _ => .error (.pyError .typeError)
      | .ok false => .ok (some j)

/-! ## The content-addressable cache (`InputFile`, deck.py lines 21-71)

The filesystem is an association list from path to raw file bytes (for
payloads) or text (for descriptors); the earliest binding for a path wins
and `fsSet` shadows. -/

/-- A filesystem holding payload files as byte lists. -/
def FS := List (String × List Nat)

/-- Read a file. -/
def fsGet (fs : FS) (p : String) : Option (List Nat) :=
  (fs.find? fun e => e.1 == p).map fun e => e.2

/-- Write a file. -/
def fsSet (fs : FS) (p : String) (c : List Nat) : FS :=
  (p, c) :: fs

/-- `InputFile.verify` (deck.py lines 67-71): read the cached payload and
assert that its SHA-256 hex digest equals the file's base name (which is the
resource id).  A missing file is an `IOError` from `open`; a digest mismatch
is the `AssertionError` from the failed `assert`. -/
def verifyFile (fs : FS) (cached_file : String) : Except PyErr Unit :=
  match fsGet fs cached_file with
  | none => .error .ioError
  | some contents =>
    if sha256hex contents = basename cached_file then .ok () else .error .assertionError

/-- `InputFile.fileCached` (deck.py lines 37-47): false when the payload
file does not exist; otherwise run `verify`, treating an `AssertionError` as
not cached and re-raising anything else (unreachable here, since existence
was just checked). -/
def fileCached (fs : FS) (cached_file : String) : Except PyErr Bool :=
  match fsGet fs cached_file with
  | none => .ok false
  | some _ =>
    match verifyFile fs cached_file with
    | .ok _ => .ok true
    | .error .assertionError => .ok false
    | .error e => .error e

/-- A filesystem holding descriptor files as text. -/
def DFS := List (String × String)

/-- Read a descriptor file. -/
def dfsGet (fs : DFS) (p : String) : Option String :=
  (fs.find? fun e => e.1 == p).map fun e => e.2

/-- `InputFile.load` (deck.py lines 60-65): read the five descriptor fields
from the decoded descriptor.  Indexing a non-object raises `TypeError`; a
missing key raises `KeyError`. -/
def loadDescriptor : Json → Except PyErr Unit
  | .obj kvs =>
    if ["name", "version", "author", "date", "description"].all
        (fun k => kvs.any fun kv => kv.1 == k) then .ok ()
    else .error .keyError
  | _ => .error .typeError

/-- `InputFile.descriptorCached` (deck.py lines 28-35): false when the
descriptor file does not exist; otherwise `json.load` it (no exception
handler: a body that fails to decode raises `ValueError`), `load` the
fields, and return true. -/
def descriptorCached (parse : String → Option Json) (fs : DFS) (cached_descriptor : String) :
    Except PyErr Bool :=
  match dfsGet fs cached_descriptor with
  | none => .ok false
  | some s =>
    match parse s with
    | none => .error .valueError
    | some j =>
      match loadDescriptor j with
      | .ok _ => .ok true
      | .error e => .error e

/-! ## Input download (`CollectorClient.downloadInput`, backend_client.py
lines 239-259, and `Deck.fetchAndVerifyNetTestInput`, deck.py lines
278-297) -/

/-- The in-memory `InputFile` object: its id and cache path
(`os.path.join(base_path, input_hash)`). -/
structure InputFileM where
  id : String
  cached_file : String
  deriving DecidableEq, Repr

/-- `InputFile.__init__`. -/
def mkInputFile (baseDir hash : String) : InputFileM :=
  ⟨hash, joinPath baseDir hash⟩

/-- `CollectorClient.downloadInput`: if the payload is cached, succeed with
the input file; otherwise download (`outcome` is the transport result,
writing the fetched bytes to the cache path on success) and `verify` in the
success callback.  Both a transport failure and a verification failure reach
the chained errback, which only logs — so the returned deferred then fires
with `None` (here `none`) instead of failing. -/
def downloadInput (fs : FS) (baseDir hash : String) (outcome : Except PyErr (List Nat)) :
    Except PyErr (Option InputFileM × FS) := do
  let f := mkInputFile baseDir hash
  let cached ← fileCached fs f.cached_file
  if cached then
    .ok (some f, fs)
  else
    match outcome with
    | .error _ => .ok (none, fs)
    | .ok bytes =>
      let fs2 := fsSet fs f.cached_file bytes
      match verifyFile fs2 f.cached_file with
      | .ok _ => .ok (some f, fs2)
      | .error _ => .ok (none, fs2)

/-- The body of `Deck.fetchAndVerifyNetTestInput` for one required input:
`yield downloadInput(hash)` with any failure of the yielded deferred mapped
to `UnableToLoadDeckInput`, then `input_file.verify()` with an
`AssertionError` mapped to `UnableToLoadDeckInput`.  When `downloadInput`'s
errback has swallowed a failure the yield produces `None`, and
`None.verify()` raises an `AttributeError`, which no handler maps. -/
def fetchInputStep (fs : FS) (baseDir hash : String) (outcome : Except PyErr (List Nat)) :
    Except PyErr (InputFileM × FS) :=
  match downloadInput fs baseDir hash outcome with
  | .error _ => .error .unableToLoadDeckInput
  | .ok (none, _) => .error .attributeError
  | .ok (some f, fs2) =>
    match verifyFile fs2 f.cached_file with
    | .ok _ => .ok (f, fs2)
    | .error .assertionError => .error .unableToLoadDeckInput
    | .error e => .error e

/-! ## Collector lookup (`Deck.lookupCollector`, deck.py lines 208-234) -/

/-- Python `set(a) == set(b)` on hash lists. -/
def setEq (a b : List String) : Bool :=
  (a.all fun x => b.contains x) && (b.all fun x => a.contains x)

/-- One entry of the directory-service response's `net-tests` list. -/
structure ProvidedNetTest where
  name : String
  version : String
  inputHashes : List String
  collector : String
  testHelpers : List (String × String)
  deriving DecidableEq, Repr

/-- The mutable in-memory state of one `NetTestLoader`, as
`Deck.lookupCollector` sees it. -/
structure NetTestLoaderState where
  testName : String
  testVersion : String
  inputFiles : List String
  missingTestHelpers : List (String × String)
  collector : Option String
  localOptions : List (String × String)
  testHelpers : List (String × String)
  deriving DecidableEq, Repr

/-- Lookup in a string association list (a Python dict). -/
def lookupKey (d : List (String × String)) (k : String) : Option String :=
  (d.find? fun e => e.1 == k).map fun e => e.2

/-- Set a key in a string association list, with Python dict semantics. -/
def setKey (d : List (String × String)) (k v : String) : List (String × String) :=
  if d.any fun e => e.1 == k then
    d.map fun e => if e.1 == k then (k, v) else e
  else
    d ++ [(k, v)]

/-- `find_collector_and_test_helpers` (deck.py lines 208-217): scan the
response's net-tests, skipping an entry whose name, version, or input-hash
set (as a set: exact equality) differs, and return the first match's
collector and test-helpers; fall through to `None` when nothing matches. -/
def find_collector_and_test_helpers (provided : List ProvidedNetTest)
    (test_name test_version : String) (input_files : List String) :
    Option (String × List (String × String)) :=
  match provided with
  | [] => none
  | nt :: rest =>
    if nt.name = test_name then
      if nt.version = test_version then
        if setEq nt.inputHashes input_files then
          some (nt.collector, nt.testHelpers)
        else
          find_collector_and_test_helpers rest test_name test_version input_files
      else
        find_collector_and_test_helpers rest test_name test_version input_files
    else
      find_collector_and_test_helpers rest test_name test_version input_files

/-- The helper-assignment loop of `Deck.lookupCollector` (lines 228-231):
for each missing test helper, look its name up in the matched assignment's
test-helpers (a missing name is a `KeyError`) and record the address in
`localOptions` and `testHelpers`. -/
def assignHelpers (test_helpers : List (String × String)) (l : NetTestLoaderState) :
    List (String × String) → Except PyErr NetTestLoaderState
  | [] => .ok l
  | (opt, name) :: rest =>
    match lookupKey test_helpers name with
    | none => .error .keyError
    | some addr =>
      assignHelpers test_helpers
        { l with
          localOptions := setKey l.localOptions opt addr
          testHelpers := setKey l.testHelpers opt addr }
        rest

/-- The per-loader body of `Deck.lookupCollector`'s final loop (lines
219-234): unpack `find_collector_and_test_helpers(...)` — unpacking the
`None` returned when nothing matched raises a `TypeError` — then assign the
missing test helpers and, if the loader has no collector yet, the matched
collector. -/
def setCollectorAndHelpers (provided : List ProvidedNetTest) (l : NetTestLoaderState) :
    Except PyErr NetTestLoaderState :=
  match find_collector_and_test_helpers provided l.testName l.testVersion l.inputFiles with
  | none => .error .typeError
  | some (collector, test_helpers) => do
    let l2 ← assignHelpers test_helpers l l.missingTestHelpers
    match l2.collector with
    | none => .ok { l2 with collector := some collector }
    | some _ => .ok l2

/-- The assignment phase of `Deck.lookupCollector` over all loaders of the
deck, in order; the first raised exception aborts the phase. -/
def lookupCollectorAssignments (provided : List ProvidedNetTest)
    (ls : List NetTestLoaderState) : Except PyErr (List NetTestLoaderState) :=
  ls.mapM (setCollectorAndHelpers provided)

/-! ## Report creation (`CollectorClient.createReport`, backend_client.py
lines 313-330) -/

/-- Set a key in an association list with values of any type, with Python
dict semantics (used for the report-creation request). -/
def setKeyV {V : Type} (d : List (String × V)) (k : String) (v : V) : List (String × V) :=
  if d.any fun e => e.1 == k then
    d.map fun e => if e.1 == k then (k, v) else e
  else
    d ++ [(k, v)]

/-- Python `dict.update` with a list of pairs: apply each in order. -/
def dictUpdate {V : Type} (d : List (String × V)) (upds : List (String × V)) :
    List (String × V) :=
  upds.foldl (fun d e => setKeyV d e.1 e.2) d

/-- Lookup in such a dict: the value of the first entry for the key. -/
def lookupKeyV {V : Type} : List (String × V) → String → Option V
  | [], _ => none
  | e :: t, k => if e.1 == k then some e.2 else lookupKeyV t k

/-- The fixed required fields of the report-creation request, from the
caller's `test_details`, plus `format: json`. -/
def fixedReportFields {V : Type} (fmtJson : V) (td : String → V) : List (String × V) :=
  [("software_name", td "software_name"),
   ("software_version", td "software_version"),
   ("probe_asn", td "probe_asn"),
   ("probe_cc", td "probe_cc"),
   ("test_name", td "test_name"),
   ("test_version", td "test_version"),
   ("test_start_time", td "test_start_time"),
   ("input_hashes", td "input_hashes"),
   ("data_format_version", td "data_format_version"),
   ("format", fmtJson)]

/-- The environment-derived updates of `createReport`: every environment
entry whose name starts with `PROBE_`, under its lower-cased name, in
environment iteration order. -/
def envUpdates {V : Type} (environ : List (String × V)) : List (String × V) :=
  (environ.filter fun e => strStartsWith e.1 "PROBE_").map fun e => (strToLower e.1, e.2)

/-- `CollectorClient.createReport`'s request: the fixed fields, then
`request.update(...)` with the environment-derived pairs (so the
environment is applied after, overwriting). -/
def createReportRequest {V : Type} (fmtJson : V) (td : String → V)
    (environ : List (String × V)) : List (String × V) :=
  dictUpdate (fixedReportFields fmtJson td) (envUpdates environ)

/-- The value of the last entry for `k` in an update list (the binding
Python `dict.update` leaves in place when several updates share a key). -/
def lastLookup {V : Type} (u : List (String × V)) (k : String) : Option V :=
  u.foldl (fun acc e => if e.1 == k then some e.2 else acc) none

/-! ## Helper lemmas -/

/-- Setting a key whose entry head does not match conses through. -/
theorem setKeyV_cons_ne {V : Type} (e : String × V) (t : List (String × V))
    (k : String) (v : V) (he : (e.1 == k) = false) :
    setKeyV (e :: t) k v = e :: setKeyV t k v := by
  have hne : ¬ e.1 = k := by simpa using he
  by_cases h : t.any fun x => x.1 == k <;>
    simp [setKeyV, h, he, hne, List.cons_append]

/-- Looking up the key just set yields the new value. -/
theorem lookupKeyV_setKeyV_self {V : Type} (d : List (String × V)) (k : String) (v : V) :
    lookupKeyV (setKeyV d k v) k = some v := by
  induction d with
  | nil => simp [setKeyV, lookupKeyV]
  | cons e t ih =>
    by_cases he : (e.1 == k) = true
    · have heq : e.1 = k := by simpa using he
      have hany : (e :: t).any (fun x => x.1 == k) = true := by simp [List.any_cons, he]
      simp [setKeyV, hany, lookupKeyV, heq]
    · have he' : (e.1 == k) = false := by simpa using he
      rw [setKeyV_cons_ne e t k v he']
      simp [lookupKeyV, he', ih]

/-- Replacing every entry of key `k'` leaves a lookup of a different key
`k` unchanged. -/
theorem lookupKeyV_map_setEntry {V : Type} (t : List (String × V)) (k k' : String)
    (v : V) (h : (k' == k) = false) :
    lookupKeyV (t.map fun e => if e.1 == k' then (k', v) else e) k = lookupKeyV t k := by
  induction t with
  | nil => rfl
  | cons e t ih =>
    by_cases he : (e.1 == k') = true
    · have heq : e.1 = k' := by simpa using he
      have hek : ¬ ((k', v).1 == k) = true := by simpa using h
      have hek2 : ¬ (e.1 == k) = true := by
        rw [heq]
        simpa using h
      simp only [List.map_cons, if_pos he, lookupKeyV]
      rw [if_neg hek, if_neg hek2]
      exact ih
    · simp only [List.map_cons, if_neg he, lookupKeyV]
      rw [ih]

/-- Appending a fresh binding for a different key leaves a lookup
unchanged. -/
theorem lookupKeyV_append_single {V : Type} (d : List (String × V)) (k k' : String)
    (v : V) (h : (k' == k) = false) :
    lookupKeyV (d ++ [(k', v)]) k = lookupKeyV d k := by
  induction d with
  | nil => simp [lookupKeyV, h]
  | cons e t ih => simp [lookupKeyV, ih]

/-- Setting one key does not disturb lookups of another. -/
theorem lookupKeyV_setKeyV_ne {V : Type} (d : List (String × V)) (k k' : String) (v : V)
    (h : (k' == k) = false) : lookupKeyV (setKeyV d k' v) k = lookupKeyV d k := by
  unfold setKeyV
  by_cases ha : (d.any fun e => e.1 == k') = true
  · rw [if_pos ha]
    exact lookupKeyV_map_setEntry d k k' v h
  · rw [if_neg ha]
    exact lookupKeyV_append_single d k k' v h

/-- A left fold of the last-binding scan over any initial accumulator: a
match in the list wins, otherwise the accumulator survives. -/
theorem lastLookup_foldl_init {V : Type} (rest : List (String × V)) (k : String) :
    ∀ init : Option V,
      rest.foldl (fun acc e => if e.1 == k then some e.2 else acc) init
        = (rest.foldl (fun acc e => if e.1 == k then some e.2 else acc) none).or init := by
  induction rest with
  | nil => intro init; simp
  | cons e t ih =>
    intro init
    simp only [List.foldl_cons]
    by_cases he : (e.1 == k) = true
    · rw [if_pos he, if_pos he, ih (some e.2)]
      cases t.foldl (fun acc e => if e.1 == k then some e.2 else acc) none <;> simp
    · have he' : ¬ (e.1 == k) = true := he
      rw [if_neg he', if_neg he', ih init]

/-- The dict after `update`: the last update for a key wins, and a key no
update touches falls back to the base dict. -/
theorem lookupKeyV_dictUpdate {V : Type} (u : List (String × V)) :
    ∀ (d : List (String × V)) (k : String),
      lookupKeyV (dictUpdate d u) k = (lastLookup u k).or (lookupKeyV d k) := by
  induction u with
  | nil => intro d k; simp [dictUpdate, lastLookup]
  | cons e rest ih =>
    intro d k
    show lookupKeyV (dictUpdate (setKeyV d e.1 e.2) rest) k = _
    rw [ih]
    unfold lastLookup
    simp only [List.foldl_cons]
    by_cases he : (e.1 == k) = true
    · rw [if_pos he, lastLookup_foldl_init rest k (some e.2)]
      have h1 : e.1 = k := by simpa using he
      cases hr : rest.foldl (fun acc x => if x.1 == k then some x.2 else acc) none with
      | some v => simp [lastLookup, hr]
      | none =>
        simp only [lastLookup, hr, Option.none_or]
        subst h1
        simp [lookupKeyV_setKeyV_self]
    · have he' : ¬ (e.1 == k) = true := he
      have he'' : (e.1 == k) = false := by simpa using he
      rw [if_neg he']
      cases hr : rest.foldl (fun acc x => if x.1 == k then some x.2 else acc) none with
      | some v => simp [lastLookup, hr]
      | none => simp [lastLookup, hr, lookupKeyV_setKeyV_ne d k e.1 e.2 he'']

/-- The retry loop performs `k + 1` requests and fails with the error of the
last of them. -/
theorem performRequestGo_eq (fail : Nat → PyErr) :
    ∀ k a, performRequestGo fail k a = (k + 1, fail (a + k)) := by
  intro k
  induction k with
  | zero => intro a; simp [performRequestGo]
  | succ n ih =>
    intro a
    simp only [performRequestGo, ih]
    have hn : a + 1 + n = a + (n + 1) := by omega
    rw [hn]

/-- String append concatenates the character data. -/
theorem data_append (a b : String) : (a ++ b).data = a.data ++ b.data := rfl

/-- A string is the string of its characters. -/
theorem mk_data (s : String) : String.mk s.data = s := rfl

/-- A list is a prefix of itself followed by anything. -/
theorem isPrefixOf_append_self (l t : List Char) : l.isPrefixOf (l ++ t) = true := by
  rw [List.isPrefixOf_iff_prefix]
  exact ⟨t, rfl⟩

/-- A string starts with any string it extends. -/
theorem strStartsWith_append (p s : String) : strStartsWith (p ++ s) p = true := by
  unfold strStartsWith
  rw [data_append]
  exact isPrefixOf_append_self p.data s.data

/-- A string that starts with `p` splits as `p` followed by a tail. -/
theorem strStartsWith_decomp {s p : String} (h : strStartsWith s p = true) :
    ∃ t : String, s = p ++ t := by
  unfold strStartsWith at h
  rw [List.isPrefixOf_iff_prefix] at h
  obtain ⟨t, ht⟩ := h
  refine ⟨String.mk t, ?_⟩
  have h2 : String.mk s.data = String.mk (p.data ++ t) := by rw [ht]
  rw [mk_data] at h2
  exact h2

/-- The netloc of an `http://` address built from a tail. -/
theorem netlocOf_http_append (s : String) :
    netlocOf ("http://" ++ s) = String.mk (s.data.takeWhile notSepChar) := rfl

/-- The netloc of an `https://` address built from a tail. -/
theorem netlocOf_https_append (s : String) :
    netlocOf ("https://" ++ s) = String.mk (s.data.takeWhile notSepChar) := rfl

/-- The netloc of an `httpo://` address built from a tail. -/
theorem netlocOf_httpo_append (s : String) :
    netlocOf ("httpo://" ++ s) = String.mk (s.data.takeWhile notSepChar) := rfl

/-- The scheme of an `http://` address built from a tail. -/
theorem schemeOf_http_append (s : String) : schemeOf ("http://" ++ s) = "http" := rfl

/-- The scheme of an `https://` address built from a tail. -/
theorem schemeOf_https_append (s : String) : schemeOf ("https://" ++ s) = "https" := rfl

/-- The scheme of an `httpo://` address built from a tail. -/
theorem schemeOf_httpo_append (s : String) : schemeOf ("httpo://" ++ s) = "httpo" := rfl

/-- The netloc never contains a separator, so re-taking is the identity. -/
theorem takeWhile_netlocOf (a : String) :
    (netlocOf a).data.takeWhile notSepChar = (netlocOf a).data := by
  unfold netlocOf
  cases hsp : splitSep a.data with
  | none => rfl
  | some p => simp [List.takeWhile_idem]

/-- Rebuilding an `http://` base around a netloc keeps the netloc. -/
theorem netlocOf_http_netloc (a : String) :
    netlocOf ("http://" ++ netlocOf a) = netlocOf a := by
  rw [netlocOf_http_append, takeWhile_netlocOf, mk_data]

/-- Rebuilding an `https://` base around a netloc keeps the netloc. -/
theorem netlocOf_https_netloc (a : String) :
    netlocOf ("https://" ++ netlocOf a) = netlocOf a := by
  rw [netlocOf_https_append, takeWhile_netlocOf, mk_data]

/-- For an address matching the onion pattern, `_setupBaseAddress` stores
`http://` plus the netloc (both the `http` and the `httpo` scheme are
rewritten to `http`). -/
theorem setupBaseAddress_onion_eq {a : String} (h : is_onion_address a = true) :
    setupBaseAddress .onion a = .ok ("http://" ++ netlocOf a) := by
  have hsch : schemeOf a = "http" ∨ schemeOf a = "httpo" := by
    have h' := h
    simp only [is_onion_address, Bool.and_eq_true, Bool.or_eq_true] at h'
    cases h'.1 with
    | inl h1 =>
      obtain ⟨t, ht⟩ := strStartsWith_decomp h1
      subst ht
      exact Or.inl (schemeOf_http_append t)
    | inr h1 =>
      obtain ⟨t, ht⟩ := strStartsWith_decomp h1
      subst ht
      exact Or.inr (schemeOf_httpo_append t)
  simp only [setupBaseAddress, h, Bool.not_true, Bool.false_eq_true, if_false,
    if_pos hsch]

/-- Folding the basename scan over slash-free characters appends them. -/
theorem foldl_basenameStep_noSlash (l : List Char) (h : ∀ c ∈ l, ¬ c = '/') :
    ∀ acc, l.foldl basenameStep acc = acc ++ l := by
  induction l with
  | nil => intro acc; simp
  | cons c t ih =>
    intro acc
    have hc : ¬ c = '/' := h c (List.mem_cons_self c t)
    simp only [List.foldl_cons, basenameStep, if_neg hc]
    rw [ih (fun x hx => h x (List.mem_cons_of_mem c hx)) (acc ++ [c])]
    simp

/-- The basename of a joined path whose final component is slash-free is
that component. -/
theorem basename_join (dir id : String) (h : ∀ c ∈ id.data, ¬ c = '/') :
    basename (joinPath dir id) = id := by
  unfold basename joinPath
  have hdata : (dir ++ "/" ++ id).data = (dir.data ++ ['/']) ++ id.data := rfl
  rw [hdata, List.foldl_append, List.foldl_append]
  simp only [List.foldl_cons, List.foldl_nil, basenameStep, if_pos rfl, if_true]
  rw [foldl_basenameStep_noSlash id.data h []]
  show String.mk ([] ++ id.data) = id
  rw [List.nil_append]

/-- Reading back a file just written yields the written contents. -/
theorem fsGet_fsSet (fs : FS) (p : String) (c : List Nat) :
    fsGet (fsSet fs p c) p = some c := by
  simp [fsGet, fsSet, List.find?_cons]

/-- A successful JSON-object lookup means the membership scan succeeds. -/
theorem jsonLookup_any {kvs : List (String × Json)} {k : String} {v : Json}
    (h : jsonLookup kvs k = some v) : (kvs.any fun kv => kv.1 == k) = true := by
  unfold jsonLookup at h
  cases hf : kvs.find? fun kv => kv.1 == k with
  | none => rw [hf] at h; simp at h
  | some kv =>
    have hm := List.mem_of_find?_eq_some hf
    have hp := List.find?_some hf
    exact List.any_eq_true.mpr ⟨kv, hm, hp⟩

/-! ## Claim theorems -/

/-- C2 (counterexample): the claim as stated is false.  With retry limit
`retries = 1` and an always-failing transport, `_request` performs 2
attempts, not exactly 1. -/
theorem c2_counterexample :
    (performRequest 1 (fun _ => PyErr.ioError) 0).1 = 2 ∧
      ¬ (performRequest 1 (fun _ => PyErr.ioError) 0).1 = 1 := by
  constructor
  · rfl
  · decide

/-- C2 (amended): with retry limit `retries = N` and a transport that fails
every request, `_request` performs exactly `N + 1` strictly sequential
attempts (the initial attempt plus `N` immediate retries) and the operation
fails with the transport's own failure from the final attempt, not a
wrapped retry error. -/
theorem c2_retry_bound (retries : Nat) (fail : Nat → PyErr) :
    performRequest retries fail 0 = (retries + 1, fail retries) := by
  simp [performRequest, performRequestGo_eq]

set_option maxRecDepth 100000 in
/-- C3: the code at the claim's failing inputs.  For a required input that
is not payload-cached, both a transport failure and a hash-verification
failure of the downloaded bytes are swallowed by `downloadInput`'s errback,
so `fetchAndVerifyNetTestInput` receives `None`, calls `None.verify()`, and
the setup fails with an `AttributeError` — not with the
`UnableToLoadDeckInput` that the claim (and the surrounding `try/except`)
intends. -/
theorem c3_actual_behavior :
    fetchInputStep [] "/inputs" "deadbeef" (.error .ioError) = .error .attributeError ∧
    fetchInputStep [] "/inputs" "deadbeef" (.ok [1, 2, 3]) = .error .attributeError ∧
    PyErr.attributeError ≠ PyErr.unableToLoadDeckInput := by
  refine ⟨rfl, rfl, by decide⟩

/-- C4: for every response body handed to `query`: an empty body succeeds
with no value; a body that fails to JSON-decode fails with
`MalformedResponse`; a body that decodes to an object with an `error` key
fails with the mapped `BackendReportedError` (the HTTP status is never
consulted by the receiver, so this holds for status 200 as well). -/
theorem c4_query_body (parse : String → Option Json) (s : String) :
    (s = "" → processResponse parse s = .ok none) ∧
    (s ≠ "" → parse s = none → processResponse parse s = .error .malformedResponse) ∧
    (∀ kvs v, s ≠ "" → parse s = some (.obj kvs) → jsonLookup kvs "error" = some v →
      processResponse parse s = .error (.backendReportedError v)) := by
  refine ⟨fun h => ?_, fun h hp => ?_, fun kvs v h hp hv => ?_⟩
  · simp [processResponse, h]
  · simp [processResponse, h, hp, get_error]
  · have hany := jsonLookup_any hv
    simp [processResponse, h, hp, pyContainsKey, hany, get_error, hv]

/-- C4 witness: concrete instances of the three branches; in particular a
body decoding to an object with an `error` entry fails with the reported
backend error even though nothing about the transport failed. -/
theorem c4_query_body_witness :
    processResponse (fun _ => some (.obj [("error", .str "invalid-request")])) "e"
      = .error (.backendReportedError (.str "invalid-request")) ∧
    processResponse (fun _ => none) "e" = .error .malformedResponse ∧
    processResponse (fun _ => none) "" = .ok none :=
  ⟨(c4_query_body (fun _ => some (.obj [("error", .str "invalid-request")])) "e").2.2
      [("error", .str "invalid-request")] (.str "invalid-request") (by decide) rfl rfl,
   (c4_query_body (fun _ => none) "e").2.1 (by decide) rfl,
   (c4_query_body (fun _ => none) "").1 rfl⟩

/-- C8 (counterexample): the claim as stated is false.  When the descriptor
file exists but its contents do not parse as JSON, `descriptorCached`
raises the decode error instead of returning false. -/
theorem c8_counterexample :
    descriptorCached (fun _ => none) [("h.desc", "not json")] "h.desc"
      = .error .valueError ∧
    ¬ descriptorCached (fun _ => none) [("h.desc", "not json")] "h.desc"
      = .ok false :=
  ⟨rfl, fun h => nomatch h⟩

/-- C8 (amended): `descriptorCached` returns false when the descriptor file
does not exist; when it exists and parses, it returns true exactly when the
decoded descriptor carries the descriptor fields; but when the file exists
and its contents fail to parse, the property propagates the JSON decode
error (`ValueError`) rather than returning false. -/
theorem c8_descriptor_cached (parse : String → Option Json) (fs : DFS) (p : String) :
    (dfsGet fs p = none → descriptorCached parse fs p = .ok false) ∧
    (∀ s, dfsGet fs p = some s → parse s = none →
      descriptorCached parse fs p = .error .valueError) ∧
    (∀ s j, dfsGet fs p = some s → parse s = some j →
      (descriptorCached parse fs p = .ok true ↔ loadDescriptor j = .ok ())) := by
  refine ⟨fun h => ?_, fun s h hp => ?_, fun s j h hp => ?_⟩
  · simp [descriptorCached, h]
  · simp [descriptorCached, h, hp]
  · cases hl : loadDescriptor j with
    | ok u => simp [descriptorCached, h, hp, hl]
    | error e => simp [descriptorCached, h, hp, hl]

/-- C10: in `createReport`, the environment-derived pairs are applied with
`dict.update` after the fixed required fields are built, so for every key
the last `PROBE_`-prefixed environment entry whose lower-cased name is that
key determines the request value, whatever `test_details` supplied — in
particular the environment takes precedence on keys such as `probe_cc`
that the fixed fields also carry. -/
theorem c10_env_precedence {V : Type} (fmtJson : V) (td : String → V)
    (environ : List (String × V)) (k : String) (v : V)
    (h : lastLookup (envUpdates environ) k = some v) :
    lookupKeyV (createReportRequest fmtJson td environ) k = some v := by
  unfold createReportRequest
  rw [lookupKeyV_dictUpdate, h]
  rfl

/-- C10 witness: with `PROBE_CC` in the environment, the request's
`probe_cc` is the environment value, not the caller-supplied one. -/
theorem c10_env_precedence_witness :
    lookupKeyV (createReportRequest "json" (fun _ => "caller-cc")
      [("PROBE_CC", "env-cc"), ("HOME", "/root")]) "probe_cc" = some "env-cc" ∧
    "env-cc" ≠ "caller-cc" :=
  ⟨c10_env_precedence "json" (fun _ => "caller-cc")
      [("PROBE_CC", "env-cc"), ("HOME", "/root")] "probe_cc" "env-cc" rfl,
   by decide⟩

/-- C1 helper: `find_collector_and_test_helpers` succeeds exactly when some
response entry agrees on name, version, and input-hash set. -/
theorem find_cth_isSome_iff (provided : List ProvidedNetTest) (n v : String)
    (ins : List String) :
    (find_collector_and_test_helpers provided n v ins).isSome = true ↔
      ∃ nt ∈ provided, nt.name = n ∧ nt.version = v ∧ setEq nt.inputHashes ins = true := by
  induction provided with
  | nil => simp [find_collector_and_test_helpers]
  | cons nt rest ih =>
    by_cases h1 : nt.name = n
    · by_cases h2 : nt.version = v
      · by_cases h3 : setEq nt.inputHashes ins = true
        · simp [find_collector_and_test_helpers, h1, h2, h3]
        · simp [find_collector_and_test_helpers, h1, h2, h3, ih]
      · simp [find_collector_and_test_helpers, h1, h2, ih]
    · simp [find_collector_and_test_helpers, h1, ih]

/-- C1 (amended): a returned assignment matches a required test iff its
name equals the test's name, its version equals the test's version, and its
input-hash set is exactly equal (as a set — neither a strict subset nor a
strict superset) to the required input-hash set; but for a required test
that no returned assignment matches, the collector-lookup loop raises a
`TypeError` while unpacking the `None` result — it does not leave the
test's collector/test-helper fields unset and complete. -/
theorem c1_matching (provided : List ProvidedNetTest) (n v : String)
    (ins : List String) (l : NetTestLoaderState) :
    ((find_collector_and_test_helpers provided n v ins).isSome = true ↔
      ∃ nt ∈ provided, nt.name = n ∧ nt.version = v ∧ setEq nt.inputHashes ins = true) ∧
    (find_collector_and_test_helpers provided l.testName l.testVersion l.inputFiles = none →
      setCollectorAndHelpers provided l = .error .typeError) := by
  refine ⟨find_cth_isSome_iff provided n v ins, fun h => ?_⟩
  simp [setCollectorAndHelpers, h]

/-- C1 witness: exactness of the matching rule at the spec's own example —
required inputs `{a, b}` are matched by an assignment with inputs `{b, a}`
but not by `{a}` or `{a, b, c}` — and a loader with no matching assignment
makes the assignment loop fail with a `TypeError`. -/
theorem c1_matching_witness :
    setCollectorAndHelpers [⟨"x", "1", ["a"], "c", []⟩]
      ⟨"x", "1", ["a", "b"], [], none, [], []⟩ = .error .typeError ∧
    (find_collector_and_test_helpers [⟨"x", "1", ["b", "a"], "c", []⟩]
      "x" "1" ["a", "b"]).isSome = true ∧
    (find_collector_and_test_helpers [⟨"x", "1", ["a"], "c", []⟩]
      "x" "1" ["a", "b"]).isSome = false ∧
    (find_collector_and_test_helpers [⟨"x", "1", ["a", "b", "c"], "c", []⟩]
      "x" "1" ["a", "b"]).isSome = false :=
  ⟨(c1_matching [⟨"x", "1", ["a"], "c", []⟩] "x" "1" ["a", "b"]
      ⟨"x", "1", ["a", "b"], [], none, [], []⟩).2 rfl,
   by decide, by decide, by decide⟩

/-- C1 (counterexample): the claim as stated is false.  A deck whose single
required test (`x`, version `1`, inputs `{a, b}`) matches no returned
assignment (the response offers inputs `{a}` only) does not complete with
the loader's fields left unset: the phase fails with a `TypeError`. -/
theorem c1_counterexample :
    lookupCollectorAssignments [⟨"x", "1", ["a"], "c", []⟩]
      [⟨"x", "1", ["a", "b"], [], none, [], []⟩] = .error .typeError ∧
    ¬ lookupCollectorAssignments [⟨"x", "1", ["a"], "c", []⟩]
        [⟨"x", "1", ["a", "b"], [], none, [], []⟩]
      = .ok [⟨"x", "1", ["a", "b"], [], none, [], []⟩] :=
  ⟨rfl, fun h => nomatch h⟩

/-- C5: with a slash-free resource id `H` (content-hash ids are hex), the
payload-cached predicate is true iff the payload file exists and the
SHA-256 hex digest of its contents equals `H`; writing bytes whose digest
is `H` under id `H` makes it true; and storing contents whose digest
differs from `H` — in particular a one-byte mutation, whenever its digest
differs, which the witness exhibits on real SHA-256 — makes it false, so a
payload failing verification is treated as not cached regardless of file
presence. -/
theorem c5_payload_cache (fs : FS) (dir id : String)
    (hid : ∀ c ∈ id.data, ¬ c = '/') :
    (fileCached fs (joinPath dir id) = .ok true ↔
      ∃ c, fsGet fs (joinPath dir id) = some c ∧ sha256hex c = id) ∧
    (∀ B, sha256hex B = id →
      fileCached (fsSet fs (joinPath dir id) B) (joinPath dir id) = .ok true) ∧
    (∀ B i b, sha256hex B = id → ¬ sha256hex (B.set i b) = id →
      fileCached (fsSet fs (joinPath dir id) (B.set i b)) (joinPath dir id) = .ok false) := by
  have hb : basename (joinPath dir id) = id := basename_join dir id hid
  refine ⟨?_, fun B hB => ?_, fun B i b hB hB' => ?_⟩
  · cases hg : fsGet fs (joinPath dir id) with
    | none => simp [fileCached, hg]
    | some c =>
      by_cases hsh : sha256hex c = id
      · simp [fileCached, verifyFile, hg, hb, hsh]
      · simp [fileCached, verifyFile, hg, hb, hsh]
  · simp [fileCached, verifyFile, fsGet_fsSet, hb, hB]
  · simp [fileCached, verifyFile, fsGet_fsSet, hb, hB']

set_option maxRecDepth 400000 in
/-- C5 witness: on real SHA-256, storing the bytes `abc` under their own
digest makes the payload cached, and mutating the last byte (to `abd`,
whose digest differs) makes the predicate false. -/
theorem c5_payload_cache_witness :
    fileCached (fsSet [] (joinPath "inputs" (sha256hex [97, 98, 99])) [97, 98, 99])
      (joinPath "inputs" (sha256hex [97, 98, 99])) = .ok true ∧
    fileCached
      (fsSet [] (joinPath "inputs" (sha256hex [97, 98, 99])) ([97, 98, 99].set 2 100))
      (joinPath "inputs" (sha256hex [97, 98, 99])) = .ok false :=
  ⟨(c5_payload_cache [] "inputs" (sha256hex [97, 98, 99]) (by decide)).2.1
      [97, 98, 99] rfl,
   (c5_payload_cache [] "inputs" (sha256hex [97, 98, 99]) (by decide)).2.2
      [97, 98, 99] 2 100 rfl (by decide)⟩

/-- C6: with no explicit type override the classification is deterministic
and total: an onion-pattern address classifies as onion; otherwise an
`https://` prefix classifies as https; otherwise an `http://` prefix as
http; any other address, and a missing address, fail with `InvalidAddress`;
and `https://example.org/x` classifies as https with normalized base
address `https://example.org`. -/
theorem c6_classification (a : String) :
    (is_onion_address a = true → guessBackendType (some a) = .ok .onion) ∧
    (is_onion_address a = false → strStartsWith a "https://" = true →
      guessBackendType (some a) = .ok .https) ∧
    (is_onion_address a = false → strStartsWith a "https://" = false →
      strStartsWith a "http://" = true → guessBackendType (some a) = .ok .http) ∧
    (is_onion_address a = false → strStartsWith a "https://" = false →
      strStartsWith a "http://" = false →
      guessBackendType (some a) = .error .invalidAddress) ∧
    guessBackendType none = .error .invalidAddress ∧
    guessBackendType (some "https://example.org/x") = .ok .https ∧
    setupBaseAddress .https "https://example.org/x" = .ok "https://example.org" := by
  refine ⟨fun h1 => ?_, fun h1 h2 => ?_, fun h1 h2 h3 => ?_, fun h1 h2 h3 => ?_,
    rfl, rfl, rfl⟩
  · simp [guessBackendType, h1]
  · simp [guessBackendType, h1, h2]
  · simp [guessBackendType, h1, h2, h3]
  · simp [guessBackendType, h1, h2, h3]

/-- C6 witness: one concrete address per classification branch. -/
theorem c6_classification_witness :
    guessBackendType (some "http://abc.onion") = .ok .onion ∧
    guessBackendType (some "https://example.org/x") = .ok .https ∧
    guessBackendType (some "http://example.org") = .ok .http ∧
    guessBackendType (some "example.org") = .error .invalidAddress :=
  ⟨(c6_classification "http://abc.onion").1 (by decide),
   (c6_classification "https://example.org/x").2.1 (by decide) (by decide),
   (c6_classification "http://example.org").2.2.1 (by decide) (by decide) (by decide),
   (c6_classification "example.org").2.2.2.1 (by decide) (by decide) (by decide)⟩

/-- C7 (counterexample): the claim as stated is false.  For the onion-type
address `httpo://abc.onion` (scheme already `httpo`), the code stores
`http://abc.onion` — the `httpo` scheme is rewritten to `http`, not kept as
the claim's "unless the scheme was already httpo" demands. -/
theorem c7_counterexample :
    setupBaseAddress .onion "httpo://abc.onion" = .ok "http://abc.onion" ∧
    ¬ setupBaseAddress .onion "httpo://abc.onion" = .ok "httpo://abc.onion" :=
  ⟨rfl, fun h => by
    have h2 : ("http://abc.onion" : String) = "httpo://abc.onion" := Except.ok.inj h
    exact absurd h2 (by decide)⟩

/-- C7 (amended): for every address of onion transport type,
base-address normalization stores scheme plus host only, storing scheme
`http` both when the address's scheme is `http` and when it is `httpo`
(the pattern admits only these schemes); and it fails with `InvalidAddress`
when the onion type is requested for an address that does not match the
onion-address pattern. -/
theorem c7_onion_normalization (a : String) :
    (is_onion_address a = true →
      setupBaseAddress .onion a = .ok ("http://" ++ netlocOf a)) ∧
    (is_onion_address a = false →
      setupBaseAddress .onion a = .error .invalidAddress) := by
  refine ⟨fun h => setupBaseAddress_onion_eq h, fun h => ?_⟩
  simp [setupBaseAddress, h]

/-- C7 witness: both onion schemes are stored as `http://` plus the host;
a non-onion address under the onion type is rejected. -/
theorem c7_onion_normalization_witness :
    setupBaseAddress .onion "httpo://abc.onion" = .ok ("http://" ++ netlocOf "httpo://abc.onion") ∧
    setupBaseAddress .onion "http://abc.onion" = .ok ("http://" ++ netlocOf "http://abc.onion") ∧
    setupBaseAddress .onion "https://example.org" = .error .invalidAddress :=
  ⟨(c7_onion_normalization "httpo://abc.onion").1 (by decide),
   (c7_onion_normalization "http://abc.onion").1 (by decide),
   (c7_onion_normalization "https://example.org").2 (by decide)⟩

/-- C9: base-address normalization is idempotent — for every address the
classifier accepts, normalizing the already-normalized base address yields
the same stored base address. -/
theorem c9_normalize_idempotent (a : String) (t : BackendType) (b : String)
    (hg : guessBackendType (some a) = .ok t) (hs : setupBaseAddress t a = .ok b) :
    setupBaseAddress t b = .ok b := by
  by_cases ho : is_onion_address a = true
  · have ht : t = .onion := by
      simp only [guessBackendType, ho, if_true] at hg
      exact (Except.ok.inj hg).symm
    subst ht
    rw [setupBaseAddress_onion_eq ho] at hs
    have hb : b = "http://" ++ netlocOf a := (Except.ok.inj hs).symm
    subst hb
    have hoe : strEndsWith (netlocOf a) ".onion" = true := by
      have h' := ho
      simp only [is_onion_address, Bool.and_eq_true] at h'
      exact h'.2
    have hob : is_onion_address ("http://" ++ netlocOf a) = true := by
      simp only [is_onion_address, strStartsWith_append, Bool.true_or,
        netlocOf_http_netloc, hoe, Bool.and_self]
    rw [setupBaseAddress_onion_eq hob, netlocOf_http_netloc]
  · have ho' : is_onion_address a = false := by simpa using ho
    by_cases h2 : strStartsWith a "https://" = true
    · have ht : t = .https := by
        simp only [guessBackendType, ho', Bool.false_eq_true, if_false, h2, if_true] at hg
        exact (Except.ok.inj hg).symm
      subst ht
      simp only [setupBaseAddress] at hs ⊢
      have hb : b = "https://" ++ netlocOf a := (Except.ok.inj hs).symm
      subst hb
      rw [netlocOf_https_netloc]
    · by_cases h3 : strStartsWith a "http://" = true
      · have ht : t = .http := by
          simp only [guessBackendType, ho', Bool.false_eq_true, if_false, h2, h3,
            if_true] at hg
          exact (Except.ok.inj hg).symm
        subst ht
        simp only [setupBaseAddress] at hs ⊢
        have hb : b = "http://" ++ netlocOf a := (Except.ok.inj hs).symm
        subst hb
        rw [netlocOf_http_netloc]
      · exfalso
        simp [guessBackendType, ho', h2, h3] at hg

/-- C9 witness: the spec's scenario address, normalized twice. -/
theorem c9_normalize_idempotent_witness :
    setupBaseAddress .https "https://example.org" = .ok "https://example.org" :=
  c9_normalize_idempotent "https://example.org/x" .https "https://example.org"
    rfl rfl

/-- C8 witness: a parsed descriptor with all fields counts as cached; a
missing descriptor file does not. -/
theorem c8_descriptor_cached_witness :
    descriptorCached
      (fun _ => some (.obj [("name", .str "n"), ("version", .str "1"),
        ("author", .str "a"), ("date", .str "d"), ("description", .str "x")]))
      [("h.desc", "{}")] "h.desc" = .ok true ∧
    descriptorCached (fun _ => none) [] "h.desc" = .ok false :=
  ⟨((c8_descriptor_cached
      (fun _ => some (.obj [("name", .str "n"), ("version", .str "1"),
        ("author", .str "a"), ("date", .str "d"), ("description", .str "x")]))
      [("h.desc", "{}")] "h.desc").2.2 "{}" _ rfl rfl).mpr rfl,
   (c8_descriptor_cached (fun _ => none) [] "h.desc").1 rfl⟩

end Ooni
